import Mathlib

/-!
# Text viewer: a model of the window and application callbacks

The program is event-wiring glue between GTK/libadwaita widgets, GSettings and
GIO's asynchronous file helpers.  The callbacks of `text-viewer-window.c` and
`text-viewer-application.c` are embedded as pure functions on an explicit
state; the library calls they make are modelled by their documented contracts.

Contents and lengths: a C byte array handed around as `(contents, length)` is a
single `List Byte` here, whose length is the C length.  Where the source hands
the `gsize` length of the file contents to the `int` parameter of
`gtk_text_buffer_set_text`, the narrowing is modelled by `gsize_to_int`.
-/

namespace TextViewer

/-! ## Bytes, UTF-8 and C strings -/

/-- One byte of file contents or of a C string. -/
abbrev Byte := Fin 256

/-- Well-formedness scan of UTF-8 (Unicode table 3-7, RFC 3629): `need` is the
number of continuation bytes still owed by the current character and
`lo .. hi` the range allowed for the next of them.  Overlong forms, surrogates
and code points above U+10FFFF are rejected; the byte `00` is the well-formed
encoding of U+0000. -/
def utf8_scan : Nat → Nat → Nat → List Byte → Bool
  | need, _, _, [] => need == 0
  | 0, _, _, b :: rest =>
      if b.val ≤ 0x7F then utf8_scan 0 0x80 0xBF rest
      else if 0xC2 ≤ b.val ∧ b.val ≤ 0xDF then utf8_scan 1 0x80 0xBF rest
      else if b.val = 0xE0 then utf8_scan 2 0xA0 0xBF rest
      else if b.val = 0xED then utf8_scan 2 0x80 0x9F rest
      else if 0xE1 ≤ b.val ∧ b.val ≤ 0xEF then utf8_scan 2 0x80 0xBF rest
      else if b.val = 0xF0 then utf8_scan 3 0x90 0xBF rest
      else if 0xF1 ≤ b.val ∧ b.val ≤ 0xF3 then utf8_scan 3 0x80 0xBF rest
      else if b.val = 0xF4 then utf8_scan 3 0x80 0x8F rest
      else false
  | need + 1, lo, hi, b :: rest =>
      if lo ≤ b.val ∧ b.val ≤ hi then utf8_scan need 0x80 0xBF rest else false

/-- The byte sequence decodes as valid UTF-8. -/
def valid_utf8 (s : List Byte) : Bool := utf8_scan 0 0x80 0xBF s

/-- GLib's `g_utf8_validate (str, max_len, NULL)` for an explicit `max_len`,
the way both callers in `open_file_complete` use it.  GLib documents that with
a length given the function returns FALSE if any of the `max_len` bytes is
nul; otherwise it is TRUE exactly on valid UTF-8. -/
def g_utf8_validate (str : List Byte) : Bool :=
  str.all (fun b => b.val != 0) && valid_utf8 str

/-- The C conversion of a `gsize` (64 bits, unsigned) to an `int` (32 bits,
signed): the low 32 bits, read in two's complement. -/
def gsize_to_int (n : Nat) : Int :=
  if n % 2 ^ 32 < 2 ^ 31 then ((n % 2 ^ 32 : Nat) : Int) else ((n % 2 ^ 32 : Nat) : Int) - 2 ^ 32

/-- C `strlen`: the number of bytes before the first nul. -/
def strlen (s : List Byte) : Nat := (s.takeWhile (fun b => b.val != 0)).length

/-- A UTF-8 continuation byte (`10xxxxxx`). -/
def is_continuation (b : Byte) : Bool := 0x80 ≤ b.val && b.val ≤ 0xBF

/-- Number of characters of UTF-8 text: the bytes that start a character. -/
def g_utf8_strlen (s : List Byte) : Nat := (s.filter (fun b => !is_continuation b)).length

/-! ## GtkTextBuffer and GtkTextIter -/

/-- The text buffer of `main_text_view`: its text as UTF-8 bytes and the
`cursor-position` property (offset of the insertion mark, in characters).
GTK only ever stores text that passes `g_utf8_validate`, so the text of a
buffer holds no nul byte; and GTK takes and counts the bytes of text in C
`int`s, so the text is shorter than 2^31 bytes. -/
structure GtkTextBuffer where
  text : List Byte
  cursor_position : Nat
  text_valid : g_utf8_validate text = true
  text_small : text.length < 2 ^ 31

/-- A position in a buffer: character offset from the start, 0-based line and
0-based character offset within the line. -/
structure GtkTextIter where
  offset : Nat
  line : Nat
  line_offset : Nat
deriving DecidableEq

/-- Whether the character starting with byte `b` and followed by `rest` ends a
line.  GTK splits lines at the paragraph boundaries of Pango: line feed,
carriage return (a CR LF pair ends the line after the LF) and U+2029. -/
def ends_line (b : Byte) (rest : List Byte) : Bool :=
  if b.val = 0x0A then true
  else if b.val = 0x0D then
    match rest with
    | n :: _ => n.val != 0x0A
    | [] => true
  else if b.val = 0xE2 then
    match rest with
    | c1 :: c2 :: _ => c1.val == 0x80 && c2.val == 0xA9
    | _ => false
  else false

/-- Move `it` forward over `n` characters of `text` (stopping at the end). -/
def iter_forward : List Byte → Nat → GtkTextIter → GtkTextIter
  | [], _, it => it
  | _ :: _, 0, it => it
  | b :: rest, n + 1, it =>
      if is_continuation b then iter_forward rest (n + 1) it
      else if ends_line b rest then
        iter_forward rest n { offset := it.offset + 1, line := it.line + 1, line_offset := 0 }
      else
        iter_forward rest n
          { offset := it.offset + 1, line := it.line, line_offset := it.line_offset + 1 }

/-- Spec side: one flag for each character of the text, in order, telling
whether a line ends with that character. -/
def line_end_flags : List Byte → List Bool
  | [] => []
  | b :: rest =>
      if is_continuation b then line_end_flags rest
      else ends_line b rest :: line_end_flags rest

/-- Spec side: the 0-based index of the line that holds the position `k`
characters into the text, which is the number of lines that end before that
position. -/
def spec_line_index (text : List Byte) (k : Nat) : Nat :=
  ((line_end_flags text).take k).count true

/-- Spec side: the 0-based offset within its line of the position `k`
characters into the text, which is the number of characters between the last
line end before that position (or the start of the text) and the position. -/
def spec_offset_in_line (text : List Byte) (k : Nat) : Nat :=
  (((line_end_flags text).take k).reverse.takeWhile (fun e => !e)).length

/-- The iterator of `gtk_text_buffer_get_start_iter`. -/
def gtk_text_buffer_get_start_iter (_buffer : GtkTextBuffer) : GtkTextIter :=
  { offset := 0, line := 0, line_offset := 0 }

/-- The iterator of `gtk_text_buffer_get_iter_at_offset`: the position
`char_offset` characters from the start, or the end of the buffer when the
offset is past it. -/
def gtk_text_buffer_get_iter_at_offset (buffer : GtkTextBuffer) (char_offset : Nat) :
    GtkTextIter :=
  iter_forward buffer.text char_offset (gtk_text_buffer_get_start_iter buffer)

/-- Line number of an iterator, as `gtk_text_iter_get_line`. -/
def gtk_text_iter_get_line (iter : GtkTextIter) : Nat := iter.line

/-- Character offset in the line, as `gtk_text_iter_get_line_offset`. -/
def gtk_text_iter_get_line_offset (iter : GtkTextIter) : Nat := iter.line_offset

/-- The text of `gtk_text_buffer_get_text` between the start and end
iterators: an allocated C string holding the whole buffer text (the program
applies no tags, so no text is hidden). -/
def gtk_text_buffer_get_text (buffer : GtkTextBuffer) : Option (List Byte) :=
  some buffer.text

/-! ## Files and asynchronous calls -/

/-- A `GError`. -/
structure GError where
  message : String
deriving DecidableEq

/-- The `GFileInfo` of a query for `standard::display-name`. -/
structure GFileInfo where
  display_name : String
deriving DecidableEq

/-- A `GFile` with what the callbacks ask of it: `g_file_peek_path`,
`g_file_get_basename`, and the result of
`g_file_query_info (file, "standard::display-name", ...)`, which is `none`
(NULL) when the query fails. -/
structure GFile where
  path : String
  basename : String
  info : Option GFileInfo
deriving DecidableEq

/-- An asynchronous operation started by a callback; the main loop later
delivers its completion to the callback registered with it. -/
inductive AsyncCall where
  /-- The call `gtk_file_dialog_open`, completed by `on_open_response`. -/
  | file_dialog_open
  /-- The call `gtk_file_dialog_save`, completed by `on_save_response`. -/
  | file_dialog_save
  /-- The call `g_file_load_contents_async`, completed by `open_file_complete`. -/
  | load_contents (file : GFile)
  /-- The call `g_file_replace_contents_bytes_async` with no etag and flags
  `G_FILE_CREATE_NONE`, completed by `save_file_complete`. -/
  | replace_contents (file : GFile) (bytes : List Byte) (make_backup : Bool)
deriving DecidableEq

/-- Whether the call reads or writes a file. -/
def AsyncCall.is_file_access : AsyncCall → Bool
  | .load_contents _ => true
  | .replace_contents _ _ _ => true
  | _ => false

/-- Contents of the files, by path. -/
abbrev FileSystem := String → Option (List Byte)

/-- A successful `g_file_replace_contents`: the file holds exactly `bytes`
afterwards, whatever it held before. -/
def g_file_replace_contents (fs : FileSystem) (file : GFile) (bytes : List Byte) : FileSystem :=
  fun p => if p = file.path then some bytes else fs p

/-- What `g_file_load_contents_finish` stores through its out-parameters:
`(contents, error)`, the error being `none` (NULL) on success. -/
def g_file_load_contents_finish (result : Except GError (List Byte)) :
    List Byte × Option GError :=
  match result with
  | .ok contents => (contents, none)
  | .error e => ([], some e)

/-! ## The window -/

/-- The state a `TextViewerWindow` and its callbacks act on: the buffer of
`main_text_view`, the window title, the text of the `cursor_pos` label, the
toasts added to `toast_overlay` (oldest first), the lines written with
`g_printerr`, and the asynchronous calls started (oldest first). -/
structure TextViewerWindow where
  buffer : GtkTextBuffer
  title : String
  cursor_pos : String
  toast_overlay : List String
  stderr : List String
  async_calls : List AsyncCall

/-- Print to the diagnostic stream, as `g_printerr`. -/
def g_printerr (self : TextViewerWindow) (line : String) : TextViewerWindow :=
  { self with stderr := self.stderr ++ [line] }

/-- Add a toast with title `msg`:
`adw_toast_overlay_add_toast (self->toast_overlay, adw_toast_new (msg))`. -/
def adw_toast_overlay_add_toast (self : TextViewerWindow) (msg : String) : TextViewerWindow :=
  { self with toast_overlay := self.toast_overlay ++ [msg] }

/-- Set the window title, as `gtk_window_set_title`. -/
def gtk_window_set_title (self : TextViewerWindow) (title : String) : TextViewerWindow :=
  { self with title := title }

/-- Start an asynchronous call. -/
def start_async (self : TextViewerWindow) (call : AsyncCall) : TextViewerWindow :=
  { self with async_calls := self.async_calls ++ [call] }

/-- The display name both completion callbacks resolve: the display name of
the file info when the query gave one, else the base name of the file. -/
def resolve_display_name (file : GFile) : String :=
  match file.info with
  | some info => info.display_name
  | none => file.basename

/-- Handler of `notify::cursor-position` on the buffer
(text-viewer-window.c, lines 286-305). -/
def text_viewer_window__update_cursor_position (self : TextViewerWindow) : TextViewerWindow :=
  let cursor_pos := self.buffer.cursor_position
  let iter := gtk_text_buffer_get_iter_at_offset self.buffer cursor_pos
  let cursor_str := "Ln " ++ toString (gtk_text_iter_get_line iter + 1) ++ ", Col "
    ++ toString (gtk_text_iter_get_line_offset iter + 1)
  { self with cursor_pos := cursor_str }

/-- The buffer after `gtk_text_buffer_set_text (buffer, text, len)` with
`len` an `int`: the old contents are deleted, then the first `len` bytes of
`text` are inserted, or with a negative `len` the bytes up to the terminating
nul, and the insertion mark ends up behind them.  GTK does not insert text
that fails `g_utf8_validate` or whose length is no positive `int`, which
leaves the buffer empty. -/
def set_text_buffer (text : List Byte) (len : Int) : GtkTextBuffer :=
  let inserted := if len < 0 then text.take (strlen text) else text.take len.toNat
  if h : g_utf8_validate inserted = true ∧ inserted.length < 2 ^ 31 then
    { text := inserted, cursor_position := g_utf8_strlen inserted,
      text_valid := h.1, text_small := h.2 }
  else
    { text := [], cursor_position := 0, text_valid := by decide, text_small := by decide }

/-- The call `gtk_text_buffer_set_text` on the buffer of the window; the
cursor position changes, which runs the handler connected in
`text_viewer_window_init`. -/
def gtk_text_buffer_set_text (self : TextViewerWindow) (text : List Byte) (len : Int) :
    TextViewerWindow :=
  text_viewer_window__update_cursor_position { self with buffer := set_text_buffer text len }

/-- The call `gtk_text_buffer_place_cursor` on the buffer of the window,
followed by the handler of `notify::cursor-position`. -/
def gtk_text_buffer_place_cursor (self : TextViewerWindow) (iter : GtkTextIter) :
    TextViewerWindow :=
  text_viewer_window__update_cursor_position
    { self with buffer := { self.buffer with cursor_position := iter.offset } }

/-- Completion of `g_file_load_contents_async`
(text-viewer-window.c, lines 68-148). -/
def open_file_complete (file : GFile) (result : Except GError (List Byte))
    (self : TextViewerWindow) : TextViewerWindow :=
  let (contents, error) := g_file_load_contents_finish result
  match error with
  | some e =>
      g_printerr self ("Unable to open “" ++ file.path ++ "”: " ++ e.message ++ "\n")
  | none =>
  if !g_utf8_validate contents then
    g_printerr self ("Unable to load the contents of “" ++ file.path ++ "”: "
      ++ "the file is not encoded with UTF-8\n")
  else
  let display_name := resolve_display_name file
  -- Show toast when error occurs
  let self :=
    match error with
    | some _ => adw_toast_overlay_add_toast self ("Unable to open `" ++ display_name ++ "`")
    | none => self
  if !g_utf8_validate contents then
    adw_toast_overlay_add_toast self ("Invalid text encoding for `" ++ display_name ++ "`")
  else
  let self := gtk_text_buffer_set_text self contents (gsize_to_int contents.length)
  let start := gtk_text_buffer_get_start_iter self.buffer
  let self := gtk_text_buffer_place_cursor self start
  gtk_window_set_title self display_name

/-- Start loading a file (text-viewer-window.c, lines 151-159). -/
def open_file (self : TextViewerWindow) (file : GFile) : TextViewerWindow :=
  start_async self (.load_contents file)

/-- Completion of the open dialog (text-viewer-window.c, lines 161-174);
`file` is the result of `gtk_file_dialog_open_finish`, `none` being NULL. -/
def on_open_response (file : Option GFile) (self : TextViewerWindow) : TextViewerWindow :=
  match file with
  | some file => open_file self file
  | none => self

/-- Handler of the `open` action (text-viewer-window.c, lines 175-187). -/
def text_viewer_window__open_file_dialog (self : TextViewerWindow) : TextViewerWindow :=
  start_async self .file_dialog_open

/-- Completion of `g_file_replace_contents_bytes_async`
(text-viewer-window.c, lines 189-230); `error` is what
`g_file_replace_contents_finish` stores, `none` being NULL. -/
def save_file_complete (file : GFile) (error : Option GError) (self : TextViewerWindow) :
    TextViewerWindow :=
  let display_name := resolve_display_name file
  let self :=
    match error with
    | some e => g_printerr self ("Unable to save “" ++ display_name ++ "”: " ++ e.message ++ "\n")
    | none => self
  let msg :=
    match error with
    | some _ => "Unable to save as`" ++ display_name ++ "`"
    | none => "Saved as `" ++ display_name ++ "`"
  adw_toast_overlay_add_toast self msg

/-- The part of `save_file` after the text is captured
(text-viewer-window.c, lines 246-258); `text` is the pointer returned by
`gtk_text_buffer_get_text`, `none` being NULL. -/
def save_file_text (text : Option (List Byte)) (self : TextViewerWindow) (file : GFile) :
    TextViewerWindow :=
  match text with
  | none => self
  | some text =>
      let bytes := text.take (strlen text)
      start_async self (.replace_contents file bytes false)

/-- Save the buffer to a file (text-viewer-window.c, lines 232-259). -/
def save_file (self : TextViewerWindow) (file : GFile) : TextViewerWindow :=
  let text := gtk_text_buffer_get_text self.buffer
  save_file_text text self file

/-- Completion of the save dialog (text-viewer-window.c, lines 261-274);
`file` is the result of `gtk_file_dialog_save_finish`, `none` being NULL. -/
def on_save_response (file : Option GFile) (self : TextViewerWindow) : TextViewerWindow :=
  match file with
  | some file => save_file self file
  | none => self

/-- Handler of the `save-as` action (text-viewer-window.c, lines 276-284). -/
def text_viewer_window__save_file_dialog (self : TextViewerWindow) : TextViewerWindow :=
  start_async self .file_dialog_save

/-! ## The main loop completing file operations -/

/-- The main loop completes a `replace_contents` call: on success the file is
replaced by `bytes`; either way `save_file_complete` runs. -/
def complete_replace_contents (fs : FileSystem) (self : TextViewerWindow) (file : GFile)
    (bytes : List Byte) (failure : Option GError) : FileSystem × TextViewerWindow :=
  match failure with
  | none => (g_file_replace_contents fs file bytes, save_file_complete file none self)
  | some e => (fs, save_file_complete file (some e) self)

/-- Color schemes of `AdwStyleManager` the application uses. -/
inductive AdwColorScheme where
  | ADW_COLOR_SCHEME_DEFAULT
  | ADW_COLOR_SCHEME_FORCE_DARK
deriving DecidableEq

/-- The settings store `com.example.TextViewer`, of which the application
reads and writes the key `dark-mode`. -/
structure GSettings where
  dark_mode : Bool
deriving DecidableEq

/-- The state the application callbacks act on: the settings store, the color
scheme of the default `AdwStyleManager`, the state of the stateful action
`dark-mode`, whether a window exists, and how often a window was presented. -/
structure TextViewerApplication where
  settings : GSettings
  color_scheme : AdwColorScheme
  dark_action : Bool
  has_window : Bool
  presented : Nat
deriving DecidableEq

/-- Instance initialisation (text-viewer-application.c, lines 175-208) in a
fresh process, whose style manager follows the system (`DEFAULT`): the action
`dark-mode` is created with the stored value as its state. -/
def text_viewer_application_init (settings : GSettings) : TextViewerApplication :=
  let dark_mode := settings.dark_mode
  { settings := settings
    color_scheme := .ADW_COLOR_SCHEME_DEFAULT
    dark_action := dark_mode
    has_window := false
    presented := 0 }

/-- The `activate` handler (text-viewer-application.c, lines 57-86). -/
def text_viewer_application_activate (self : TextViewerApplication) : TextViewerApplication :=
  let dark_mode := self.settings.dark_mode
  let self :=
    { self with
      color_scheme :=
        if dark_mode then .ADW_COLOR_SCHEME_FORCE_DARK else .ADW_COLOR_SCHEME_DEFAULT }
  let self := if self.has_window then self else { self with has_window := true }
  { self with presented := self.presented + 1 }

/-- Handler of `change-state` on the action `dark-mode`
(text-viewer-application.c, lines 154-173). -/
def change_color_scheme (self : TextViewerApplication) (new_state : Bool) :
    TextViewerApplication :=
  let dark_mode := new_state
  let self :=
    if dark_mode then { self with color_scheme := .ADW_COLOR_SCHEME_FORCE_DARK }
    else { self with color_scheme := .ADW_COLOR_SCHEME_DEFAULT }
  let self := { self with dark_action := new_state }
  { self with settings := { self.settings with dark_mode := dark_mode } }

/-- The call `g_action_change_state` on the action `dark-mode`: a handler is
connected to `change-state`, so the request is handed to it. -/
def g_action_change_state (self : TextViewerApplication) (value : Bool) :
    TextViewerApplication :=
  change_color_scheme self value

/-- Handler of `activate` on the action `dark-mode`
(text-viewer-application.c, lines 140-152). -/
def toggle_dark_mode (self : TextViewerApplication) : TextViewerApplication :=
  let old_state := self.dark_action
  let new_state := !old_state
  g_action_change_state self new_state

/-- After `activate`, and after any toggle, the action state is the stored
value and the color scheme is the one that goes with it. -/
def dark_mode_coherent (app : TextViewerApplication) : Prop :=
  app.dark_action = app.settings.dark_mode ∧
  app.color_scheme =
    (if app.settings.dark_mode then AdwColorScheme.ADW_COLOR_SCHEME_FORCE_DARK
     else AdwColorScheme.ADW_COLOR_SCHEME_DEFAULT)

/-! ## Example states -/

/-- A window as created: empty buffer, cursor at the start, nothing shown,
printed or started. -/
def window_new : TextViewerWindow :=
  { buffer :=
      { text := [], cursor_position := 0, text_valid := by decide, text_small := by decide }
    title := "Text Viewer"
    cursor_pos := "Ln 1, Col 1"
    toast_overlay := []
    stderr := []
    async_calls := [] }

/-- A window whose buffer holds the bytes of "Hi\nThere" with the cursor
behind "Th" of the second line (offset 5), titled after an earlier load. -/
def window_editing : TextViewerWindow :=
  { buffer :=
      { text := [0x48, 0x69, 0x0A, 0x54, 0x68, 0x65, 0x72, 0x65]
        cursor_position := 5
        text_valid := by decide
        text_small := by decide }
    title := "draft.txt"
    cursor_pos := "Ln 2, Col 3"
    toast_overlay := ["Saved as `draft.txt`"]
    stderr := []
    async_calls := [] }

/-- A buffer holding the bytes of "a\r\nb" with the cursor at offset
`cursor`: one line ended by the CR LF pair, then "b". -/
def buffer_crlf (cursor : Nat) : GtkTextBuffer :=
  { text := [0x61, 0x0D, 0x0A, 0x62]
    cursor_position := cursor
    text_valid := by decide
    text_small := by decide }

/-- A buffer holding the bytes `C3 A9 E2 80 A9 78 0D 79`, the five characters
U+00E9, U+2029, "x", CR, "y", with the cursor at offset `cursor`. -/
def buffer_unicode (cursor : Nat) : GtkTextBuffer :=
  { text := [0xC3, 0xA9, 0xE2, 0x80, 0xA9, 0x78, 0x0D, 0x79]
    cursor_position := cursor
    text_valid := by decide
    text_small := by decide }

/-- The file "notes.txt", whose info query succeeds. -/
def file_notes : GFile :=
  { path := "/home/user/notes.txt"
    basename := "notes.txt"
    info := some { display_name := "notes.txt" } }

/-- The file "out.txt", not yet on disk: its info query fails. -/
def file_out : GFile :=
  { path := "/home/user/out.txt", basename := "out.txt", info := none }

/-- An empty file system. -/
def fs_empty : FileSystem := fun _ => none

end TextViewer

/-! ## Lemmas on the library model -/

namespace TextViewer

theorem g_utf8_validate_of_valid (s : List Byte) (hv : valid_utf8 s = true)
    (hn : (0 : Byte) ∉ s) : g_utf8_validate s = true := by
  unfold g_utf8_validate
  rw [hv, Bool.and_true, List.all_eq_true]
  intro b hb
  have h0 : b ≠ 0 := fun h => hn (h ▸ hb)
  have h1 : b.val ≠ 0 := fun h => h0 (Fin.ext h)
  simpa using h1

theorem g_utf8_validate_of_invalid (s : List Byte) (hv : valid_utf8 s = false) :
    g_utf8_validate s = false := by
  unfold g_utf8_validate
  rw [hv, Bool.and_false]

theorem no_nul_of_g_utf8_validate (s : List Byte) (h : g_utf8_validate s = true) :
    ∀ b ∈ s, (b.val != 0) = true := by
  unfold g_utf8_validate at h
  rw [Bool.and_eq_true, List.all_eq_true] at h
  exact h.1

theorem strlen_of_no_nul (s : List Byte) (h : ∀ b ∈ s, (b.val != 0) = true) :
    strlen s = s.length := by
  unfold strlen
  rw [List.takeWhile_eq_self_iff.mpr h]

theorem iter_forward_zero (text : List Byte) (it : GtkTextIter) :
    iter_forward text 0 it = it := by
  cases text <;> rfl

theorem gsize_to_int_small (n : Nat) (h : n < 2 ^ 31) : gsize_to_int n = (n : Int) := by
  have hmod : n % 2 ^ 32 = n := Nat.mod_eq_of_lt (by omega)
  unfold gsize_to_int
  rw [hmod, if_pos h]

theorem set_text_buffer_valid (text : List Byte) (h : g_utf8_validate text = true)
    (hlen : text.length < 2 ^ 31) :
    (set_text_buffer text (gsize_to_int text.length)).text = text := by
  have htake : (if gsize_to_int text.length < 0 then text.take (strlen text)
      else text.take (gsize_to_int text.length).toNat) = text := by
    rw [gsize_to_int_small _ hlen, if_neg (by omega), Int.toNat_ofNat, List.take_length]
  unfold set_text_buffer
  simp only [htake]
  rw [dif_pos ⟨h, hlen⟩]

end TextViewer

/-! ## Loading a file -/

namespace TextViewer

/-- What a load completion leaves behind when the read succeeded with
contents that pass `g_utf8_validate`. -/
theorem open_file_complete_accepted (file : GFile) (contents : List Byte)
    (self : TextViewerWindow) (h : g_utf8_validate contents = true) :
    open_file_complete file (.ok contents) self =
      gtk_window_set_title
        (gtk_text_buffer_place_cursor
          (gtk_text_buffer_set_text self contents (gsize_to_int contents.length))
          (gtk_text_buffer_get_start_iter
            (gtk_text_buffer_set_text self contents (gsize_to_int contents.length)).buffer))
        (resolve_display_name file) := by
  simp [open_file_complete, g_file_load_contents_finish, h]

/-- What a load completion does when the read succeeded with contents that
fail `g_utf8_validate`: one line on the diagnostic stream, nothing else. -/
theorem open_file_complete_rejected (file : GFile) (contents : List Byte)
    (self : TextViewerWindow) (h : g_utf8_validate contents = false) :
    open_file_complete file (.ok contents) self =
      g_printerr self ("Unable to load the contents of “" ++ file.path ++ "”: "
        ++ "the file is not encoded with UTF-8\n") := by
  simp [open_file_complete, g_file_load_contents_finish, h]

/-- What a load completion does when the read failed: one line on the
diagnostic stream, nothing else. -/
theorem open_file_complete_read_error (file : GFile) (e : GError) (self : TextViewerWindow) :
    open_file_complete file (.error e) self =
      g_printerr self ("Unable to open “" ++ file.path ++ "”: " ++ e.message ++ "\n") := by
  simp [open_file_complete, g_file_load_contents_finish]

/-- At the edge of the `int` range: a read of 2^31 up to 2^32 - 1 bytes that
pass `g_utf8_validate` reaches `gtk_text_buffer_set_text` with a negative
length; the text is taken up to its terminating nul, which is more than GTK
inserts, and the buffer is left empty. -/
theorem open_file_complete_int_overflow (file : GFile) (contents : List Byte)
    (self : TextViewerWindow) (h : g_utf8_validate contents = true)
    (hlo : 2 ^ 31 ≤ contents.length) (hhi : contents.length < 2 ^ 32) :
    (open_file_complete file (.ok contents) self).buffer.text = [] := by
  have hmod : contents.length % 2 ^ 32 = contents.length := Nat.mod_eq_of_lt hhi
  have hneg : gsize_to_int contents.length < 0 := by
    unfold gsize_to_int
    rw [hmod, if_neg (by omega)]
    omega
  have hstr : strlen contents = contents.length :=
    strlen_of_no_nul _ (no_nul_of_g_utf8_validate _ h)
  have htake : (if gsize_to_int contents.length < 0 then contents.take (strlen contents)
      else contents.take (gsize_to_int contents.length).toNat) = contents := by
    rw [if_pos hneg, hstr, List.take_length]
  rw [open_file_complete_accepted file contents self h]
  show (set_text_buffer contents (gsize_to_int contents.length)).text = []
  unfold set_text_buffer
  simp only [htake]
  rw [dif_neg (by omega)]

theorem g_utf8_validate_replicate_a (n : Nat) :
    g_utf8_validate (List.replicate n (0x61 : Byte)) = true := by
  have hv : valid_utf8 (List.replicate n (0x61 : Byte)) = true := by
    unfold valid_utf8
    induction n with
    | zero => rfl
    | succ n ih =>
        rw [List.replicate_succ]
        unfold utf8_scan
        rw [if_pos (by decide)]
        exact ih
  refine g_utf8_validate_of_valid _ hv ?_
  intro hmem
  exact absurd (List.eq_of_mem_replicate hmem) (by decide)

/-- A file of 2^31 letters "a" is valid UTF-8 without a nul byte, and its
load leaves the buffer empty. -/
theorem open_file_complete_two_gib :
    valid_utf8 (List.replicate (2 ^ 31) (0x61 : Byte)) = true ∧
    (0 : Byte) ∉ List.replicate (2 ^ 31) (0x61 : Byte) ∧
    (open_file_complete file_notes (.ok (List.replicate (2 ^ 31) (0x61 : Byte)))
      window_new).buffer.text = [] := by
  have hg := g_utf8_validate_replicate_a (2 ^ 31)
  have hlen : (List.replicate (2 ^ 31) (0x61 : Byte)).length = 2 ^ 31 := List.length_replicate _ _
  refine ⟨?_, ?_, ?_⟩
  · unfold g_utf8_validate at hg
    rw [Bool.and_eq_true] at hg
    exact hg.2
  · intro hmem
    exact absurd (List.eq_of_mem_replicate hmem) (by decide)
  · exact open_file_complete_int_overflow _ _ _ hg (by rw [hlen]) (by rw [hlen]; norm_num)

/-- C1, the claim as stated fails: the three bytes `61 00 62` are valid UTF-8
(the characters U+0061, U+0000, U+0062), yet a successful read of them into a
new window is turned down by `g_utf8_validate`, which takes no nul byte; the
buffer stays empty and the title stays what it was. -/
theorem open_file_complete_nul_counterexample :
    valid_utf8 [0x61, 0x00, 0x62] = true ∧
    (open_file_complete file_notes (.ok [0x61, 0x00, 0x62]) window_new).buffer.text
      ≠ [0x61, 0x00, 0x62] ∧
    (open_file_complete file_notes (.ok [0x61, 0x00, 0x62]) window_new).buffer.text = [] ∧
    (open_file_complete file_notes (.ok [0x61, 0x00, 0x62]) window_new).title = "Text Viewer" := by
  decide

/-- C1, amended: for every byte sequence `S` that is valid UTF-8, holds no
nul byte and is shorter than 2^31 bytes (so that its length is an `int`),
every file and every prior window state, a load completion with a
successful read of `S` leaves the buffer text equal to `S`, the cursor at
offset 0, which is line 0 and line offset 0 and is shown as "Ln 1, Col 1",
and the window title equal to the display name of the file info when the
query gave one, else to the base name of the file. -/
theorem open_file_complete_loads (S : List Byte) (file : GFile) (self : TextViewerWindow)
    (hvalid : valid_utf8 S = true) (hnul : (0 : Byte) ∉ S) (hlen : S.length < 2 ^ 31) :
    (open_file_complete file (.ok S) self).buffer.text = S ∧
    (open_file_complete file (.ok S) self).buffer.cursor_position = 0 ∧
    gtk_text_buffer_get_iter_at_offset (open_file_complete file (.ok S) self).buffer
        (open_file_complete file (.ok S) self).buffer.cursor_position
      = { offset := 0, line := 0, line_offset := 0 } ∧
    (open_file_complete file (.ok S) self).cursor_pos = "Ln 1, Col 1" ∧
    (open_file_complete file (.ok S) self).title =
      (match file.info with
       | some info => info.display_name
       | none => file.basename) := by
  have h := g_utf8_validate_of_valid S hvalid hnul
  rw [open_file_complete_accepted file S self h]
  refine ⟨?_, rfl, ?_, ?_, rfl⟩
  · exact set_text_buffer_valid S h hlen
  · exact iter_forward_zero _ _
  · show "Ln " ++ toString (gtk_text_iter_get_line (iter_forward _ 0 _) + 1) ++ ", Col "
      ++ toString (gtk_text_iter_get_line_offset (iter_forward _ 0 _) + 1) = "Ln 1, Col 1"
    rw [iter_forward_zero]
    simp only [gtk_text_iter_get_line, gtk_text_iter_get_line_offset,
      gtk_text_buffer_get_start_iter]
    decide

/-- C1, witness: "notes.txt" holding the bytes `48 65 6C 6C 6F` ("Hello"),
loaded into a window that was editing another text. -/
theorem open_file_complete_loads_witness :
    (open_file_complete file_notes (.ok [0x48, 0x65, 0x6C, 0x6C, 0x6F]) window_editing).buffer.text
      = [0x48, 0x65, 0x6C, 0x6C, 0x6F] ∧
    (open_file_complete file_notes (.ok [0x48, 0x65, 0x6C, 0x6C, 0x6F])
      window_editing).buffer.cursor_position = 0 ∧
    (open_file_complete file_notes (.ok [0x48, 0x65, 0x6C, 0x6C, 0x6F]) window_editing).cursor_pos
      = "Ln 1, Col 1" ∧
    (open_file_complete file_notes (.ok [0x48, 0x65, 0x6C, 0x6C, 0x6F]) window_editing).title
      = "notes.txt" :=
  have h := open_file_complete_loads [0x48, 0x65, 0x6C, 0x6C, 0x6F] file_notes window_editing
    (by decide) (by decide) (by decide)
  ⟨h.1, h.2.1, h.2.2.2.1, h.2.2.2.2⟩

/-- C2: for every file and prior window state, a load that fails, because the
read reports an error or because the bytes read are not valid UTF-8, leaves
the buffer (text and cursor), the cursor label and the window title as they
were; nothing of the bytes read reaches the buffer. -/
theorem open_file_complete_failure_frame (file : GFile) (result : Except GError (List Byte))
    (self : TextViewerWindow)
    (hfail : (∃ e, result = .error e) ∨ (∃ S, result = .ok S ∧ valid_utf8 S = false)) :
    (open_file_complete file result self).buffer = self.buffer ∧
    (open_file_complete file result self).cursor_pos = self.cursor_pos ∧
    (open_file_complete file result self).title = self.title := by
  rcases hfail with ⟨e, rfl⟩ | ⟨S, rfl, hS⟩
  · rw [open_file_complete_read_error]
    exact ⟨rfl, rfl, rfl⟩
  · rw [open_file_complete_rejected file S self (g_utf8_validate_of_invalid S hS)]
    exact ⟨rfl, rfl, rfl⟩

/-- C2, witness: the lone byte `FF` read into the window that is editing
"Hi\nThere". -/
theorem open_file_complete_failure_frame_witness :
    (open_file_complete file_notes (.ok [0xFF]) window_editing).buffer = window_editing.buffer ∧
    (open_file_complete file_notes (.ok [0xFF]) window_editing).cursor_pos = "Ln 2, Col 3" ∧
    (open_file_complete file_notes (.ok [0xFF]) window_editing).title = "draft.txt" :=
  open_file_complete_failure_frame file_notes (.ok [0xFF]) window_editing
    (Or.inr ⟨[0xFF], rfl, by decide⟩)

/-- C3, the code at the failing inputs: neither a read of the invalid byte
`FF` nor a failed read adds a toast; each only prints a line with
`g_printerr` and returns before the code that would add the toast. -/
theorem open_file_complete_failure_no_toast :
    (open_file_complete file_notes (.ok [0xFF]) window_new).toast_overlay = [] ∧
    (open_file_complete file_notes (.ok [0xFF]) window_new).stderr =
      ["Unable to load the contents of “/home/user/notes.txt”: "
        ++ "the file is not encoded with UTF-8\n"] ∧
    (open_file_complete file_out (.error { message := "No such file or directory" })
      window_new).toast_overlay = [] ∧
    (open_file_complete file_out (.error { message := "No such file or directory" })
      window_new).stderr = ["Unable to open “/home/user/out.txt”: No such file or directory\n"] := by
  decide

end TextViewer

/-! ## Saving the buffer -/

namespace TextViewer

/-- The bytes `save_file` passes on are the whole buffer text: a buffer holds
no nul byte, so `strlen` of its text is the length of the text. -/
theorem save_file_issues (self : TextViewerWindow) (file : GFile) :
    save_file self file = start_async self (.replace_contents file self.buffer.text false) := by
  have hlen : strlen self.buffer.text = self.buffer.text.length :=
    strlen_of_no_nul _ (no_nul_of_g_utf8_validate _ self.buffer.text_valid)
  simp [save_file, save_file_text, gtk_text_buffer_get_text, hlen]

/-- C5, the claim as stated fails: a new window has the empty text, and
`save_file` on it does start a write, a replace of "out.txt" by zero bytes;
its completion then adds a toast. -/
theorem save_file_empty_counterexample :
    gtk_text_buffer_get_text window_new.buffer = some [] ∧
    (save_file window_new file_out).async_calls = [.replace_contents file_out [] false] ∧
    (save_file window_new file_out).async_calls ≠ window_new.async_calls ∧
    (complete_replace_contents fs_empty (save_file window_new file_out) file_out [] none).2.toast_overlay
      = ["Saved as `out.txt`"] := by
  decide

/-- C5, amended: for every window state and file, when the captured text is
unavailable (the pointer is NULL) the save is abandoned with the state as it
was, so no call is started and no toast added; an empty text is not a reason
to stop: the replace is started with zero bytes. -/
theorem save_file_text_unavailable (self : TextViewerWindow) (file : GFile) :
    save_file_text none self file = self ∧
    (save_file_text none self file).async_calls = self.async_calls ∧
    (save_file_text none self file).toast_overlay = self.toast_overlay ∧
    save_file_text (some []) self file = start_async self (.replace_contents file [] false) ∧
    (save_file_text (some []) self file).async_calls
      = self.async_calls ++ [.replace_contents file [] false] := by
  refine ⟨rfl, rfl, rfl, ?_, ?_⟩ <;> simp [save_file_text, strlen, start_async]

/-- C6, the claim as stated fails: a failed write to "out.txt" adds the toast
"Unable to save as`out.txt`", not "failed to save as out.txt". -/
theorem save_file_complete_failure_text_counterexample :
    (save_file_complete file_out (some { message := "Permission denied" })
      window_new).toast_overlay = ["Unable to save as`out.txt`"] ∧
    (save_file_complete file_out (some { message := "Permission denied" })
      window_new).toast_overlay ≠ ["failed to save as out.txt"] := by
  decide

/-- C6, amended: every completed save adds exactly one toast, which names the
resolved display name (that of the file info when the query gave one, else
the base name): "Saved as `name`" when the write succeeded and
"Unable to save as`name`" when it failed. -/
theorem save_file_complete_toast (file : GFile) (error : Option GError)
    (self : TextViewerWindow) :
    (save_file_complete file error self).toast_overlay =
      self.toast_overlay ++
        [match error, file.info with
         | none, some info => "Saved as `" ++ info.display_name ++ "`"
         | none, none => "Saved as `" ++ file.basename ++ "`"
         | some _, some info => "Unable to save as`" ++ info.display_name ++ "`"
         | some _, none => "Unable to save as`" ++ file.basename ++ "`"] := by
  cases error <;> cases hinfo : file.info <;>
    simp [save_file_complete, adw_toast_overlay_add_toast, g_printerr, resolve_display_name, hinfo]

/-- C7: for every window state, file and outcome of the write, `save_file`
followed by `save_file_complete` leaves the buffer (text and cursor), the
cursor label and the window title as they were; the title is not set to the
destination. -/
theorem save_as_frame (self : TextViewerWindow) (file : GFile) (error : Option GError) :
    (save_file self file).buffer = self.buffer ∧
    (save_file self file).cursor_pos = self.cursor_pos ∧
    (save_file self file).title = self.title ∧
    (save_file_complete file error (save_file self file)).buffer = self.buffer ∧
    (save_file_complete file error (save_file self file)).cursor_pos = self.cursor_pos ∧
    (save_file_complete file error (save_file self file)).title = self.title := by
  rw [save_file_issues]
  cases error <;> exact ⟨rfl, rfl, rfl, rfl, rfl, rfl⟩

end TextViewer

/-! ## The cursor label -/

namespace TextViewer

/-- Moving forward keeps the line and the line offset within the characters
passed, and passes no more characters than asked. -/
theorem iter_forward_bounds (text : List Byte) :
    ∀ (n : Nat) (it : GtkTextIter), it.line + it.line_offset ≤ it.offset →
      (iter_forward text n it).line + (iter_forward text n it).line_offset
          ≤ (iter_forward text n it).offset ∧
        (iter_forward text n it).offset ≤ it.offset + n := by
  induction text with
  | nil =>
      intro n it h
      exact ⟨h, Nat.le_add_right _ _⟩
  | cons b rest ih =>
      intro n it h
      cases n with
      | zero => exact ⟨h, Nat.le_refl _⟩
      | succ n =>
          unfold iter_forward
          by_cases hc : is_continuation b = true
          · rw [if_pos hc]
            exact ih (n + 1) it h
          · rw [if_neg hc]
            by_cases he : ends_line b rest = true
            · rw [if_pos he]
              have := ih n { offset := it.offset + 1, line := it.line + 1, line_offset := 0 }
                (by simp only; omega)
              simp only at this
              exact ⟨this.1, by omega⟩
            · rw [if_neg he]
              have := ih n
                { offset := it.offset + 1, line := it.line, line_offset := it.line_offset + 1 }
                (by simp only; omega)
              simp only at this
              exact ⟨this.1, by omega⟩

theorem takeWhile_append_of_stop {α : Type} (p : α → Bool) (xs ys : List α)
    (h : ∃ x ∈ xs, p x = false) : (xs ++ ys).takeWhile p = xs.takeWhile p := by
  induction xs with
  | nil =>
      obtain ⟨x, hx, _⟩ := h
      exact absurd hx (List.not_mem_nil x)
  | cons a xs ih =>
      cases hpa : p a with
      | false => simp [List.takeWhile_cons, hpa]
      | true =>
          obtain ⟨x, hx, hpx⟩ := h
          have hx' : x ∈ xs := by
            rcases List.mem_cons.mp hx with rfl | hx'
            · rw [hpa] at hpx
              exact absurd hpx (by decide)
            · exact hx'
          simp [List.takeWhile_cons, hpa, ih ⟨x, hx', hpx⟩]

/-- The run of characters behind the last line end, when one more character
is put in front. -/
theorem trailing_cons (e : Bool) (l : List Bool) :
    ((e :: l).reverse.takeWhile (fun e => !e)).length =
      if true ∈ l then (l.reverse.takeWhile (fun e => !e)).length
      else l.length + (if e then 0 else 1) := by
  rw [List.reverse_cons]
  by_cases h : true ∈ l
  · rw [if_pos h, takeWhile_append_of_stop _ _ _ ⟨true, List.mem_reverse.mpr h, rfl⟩]
  · rw [if_neg h, List.takeWhile_append_of_pos]
    · cases e <;> simp
    · intro a ha
      cases a with
      | false => rfl
      | true => exact absurd (List.mem_reverse.mp ha) h

/-- Moving forward over `n` characters, told by the flags of the characters
passed: the offset grows by their number, the line by the number of line ends
among them, and the line offset is the number of characters behind the last
of those line ends, or grows by their number when there is none. -/
theorem iter_forward_flags (text : List Byte) :
    ∀ (n : Nat) (it : GtkTextIter),
      (iter_forward text n it).offset = it.offset + ((line_end_flags text).take n).length ∧
      (iter_forward text n it).line = it.line + ((line_end_flags text).take n).count true ∧
      (iter_forward text n it).line_offset =
        if true ∈ (line_end_flags text).take n then
          (((line_end_flags text).take n).reverse.takeWhile (fun e => !e)).length
        else it.line_offset + ((line_end_flags text).take n).length := by
  induction text with
  | nil =>
      intro n it
      simp [iter_forward, line_end_flags]
  | cons b rest ih =>
      intro n it
      cases n with
      | zero => simp [iter_forward]
      | succ n =>
          unfold iter_forward line_end_flags
          by_cases hc : is_continuation b = true
          · rw [if_pos hc, if_pos hc]
            exact ih (n + 1) it
          · rw [if_neg hc, if_neg hc, List.take_succ_cons]
            by_cases he : ends_line b rest = true
            · rw [if_pos he, he]
              obtain ⟨h1, h2, h3⟩ := ih n
                { offset := it.offset + 1, line := it.line + 1, line_offset := 0 }
              refine ⟨?_, ?_, ?_⟩
              · rw [h1, List.length_cons]; simp only; omega
              · rw [h2, List.count_cons_self]; simp only; omega
              · rw [h3, if_pos (List.mem_cons_self _ _), trailing_cons]
                simp
            · rw [if_neg he]
              have he' : ends_line b rest = false := by simpa using he
              rw [he']
              obtain ⟨h1, h2, h3⟩ := ih n
                { offset := it.offset + 1, line := it.line, line_offset := it.line_offset + 1 }
              refine ⟨?_, ?_, ?_⟩
              · rw [h1, List.length_cons]; simp only; omega
              · rw [h2, List.count_cons_of_ne (by decide)]
              · rw [h3, trailing_cons]
                by_cases hm : true ∈ List.take n (line_end_flags rest)
                · rw [if_pos hm, if_pos hm, if_pos (List.mem_cons_of_mem _ hm)]
                · have hm' : true ∉ false :: List.take n (line_end_flags rest) := by
                    intro hmem
                    rcases List.mem_cons.mp hmem with h | h
                    · exact absurd h (by decide)
                    · exact hm h
                  rw [if_neg hm, if_neg hm, if_neg hm', List.length_cons]
                  simp only
                  omega

theorem line_end_flags_length (text : List Byte) :
    (line_end_flags text).length = g_utf8_strlen text := by
  induction text with
  | nil => rfl
  | cons b rest ih =>
      unfold line_end_flags g_utf8_strlen
      by_cases hc : is_continuation b = true
      · rw [if_pos hc, List.filter_cons_of_neg (by simp [hc])]
        exact ih
      · rw [if_neg hc, List.filter_cons_of_pos (by simpa using hc), List.length_cons,
          List.length_cons, ih]
        rfl

/-- The iterator at a character offset, told by the spec side. -/
theorem get_iter_at_offset_spec (buffer : GtkTextBuffer) (k : Nat) :
    gtk_text_buffer_get_iter_at_offset buffer k =
      { offset := min k (g_utf8_strlen buffer.text)
        line := spec_line_index buffer.text k
        line_offset := spec_offset_in_line buffer.text k } := by
  obtain ⟨h1, h2, h3⟩ := iter_forward_flags buffer.text k (gtk_text_buffer_get_start_iter buffer)
  have h3' : (iter_forward buffer.text k (gtk_text_buffer_get_start_iter buffer)).line_offset
      = spec_offset_in_line buffer.text k := by
    rw [h3]
    unfold spec_offset_in_line
    by_cases hm : true ∈ List.take k (line_end_flags buffer.text)
    · rw [if_pos hm]
    · rw [if_neg hm]
      have hall : ∀ a ∈ (List.take k (line_end_flags buffer.text)).reverse,
          (fun e => !e) a = true := by
        intro a ha
        cases a with
        | false => rfl
        | true => exact absurd (List.mem_reverse.mp ha) hm
      rw [List.takeWhile_eq_self_iff.mpr hall, List.length_reverse]
      show 0 + _ = _
      omega
  unfold gtk_text_buffer_get_iter_at_offset
  cases hit : iter_forward buffer.text k (gtk_text_buffer_get_start_iter buffer) with
  | mk o l c =>
      rw [hit] at h1 h2 h3'
      simp only at h1 h2 h3'
      rw [h1, h2, h3', List.length_take, line_end_flags_length]
      unfold spec_line_index
      simp [gtk_text_buffer_get_start_iter]

/-- C8: for every window state, that is every buffer and cursor offset, the
handler sets the label to exactly "Ln l, Col c", where `l` is one more than
the 0-based index of the line the cursor is in (the number of lines that end
before the cursor) and `c` one more than the 0-based offset of the cursor in
that line (the number of characters between the start of the line and the
cursor); these are the line and line offset of the iterator at the cursor.
Both numbers are at least 1, together they stay within the cursor offset plus
two, with the cursor at offset 0 the label is "Ln 1, Col 1", and the handler
changes nothing but the label.  Instances: in "Hi\nThere" offset 5 is
"Ln 2, Col 3"; in "a\r\nb" the position between CR and LF is still on line 1
and the position behind LF starts line 2; in the text U+00E9, U+2029, "x",
CR, "y" characters of several bytes count once, U+2029 and a lone CR end a
line, and an offset past the end shows the end of the text. -/
theorem update_cursor_position_label (self : TextViewerWindow) :
    (text_viewer_window__update_cursor_position self).cursor_pos =
      "Ln "
        ++ toString (spec_line_index self.buffer.text self.buffer.cursor_position + 1)
        ++ ", Col "
        ++ toString (spec_offset_in_line self.buffer.text self.buffer.cursor_position + 1) ∧
    gtk_text_buffer_get_iter_at_offset self.buffer self.buffer.cursor_position =
      { offset := min self.buffer.cursor_position (g_utf8_strlen self.buffer.text)
        line := spec_line_index self.buffer.text self.buffer.cursor_position
        line_offset := spec_offset_in_line self.buffer.text self.buffer.cursor_position } ∧
    1 ≤ spec_line_index self.buffer.text self.buffer.cursor_position + 1 ∧
    1 ≤ spec_offset_in_line self.buffer.text self.buffer.cursor_position + 1 ∧
    (spec_line_index self.buffer.text self.buffer.cursor_position + 1)
      + (spec_offset_in_line self.buffer.text self.buffer.cursor_position + 1)
      ≤ self.buffer.cursor_position + 2 ∧
    (text_viewer_window__update_cursor_position
      { self with buffer := { self.buffer with cursor_position := 0 } }).cursor_pos
      = "Ln 1, Col 1" ∧
    (text_viewer_window__update_cursor_position self).buffer = self.buffer ∧
    (text_viewer_window__update_cursor_position self).title = self.title ∧
    (text_viewer_window__update_cursor_position self).toast_overlay = self.toast_overlay ∧
    (text_viewer_window__update_cursor_position window_editing).cursor_pos = "Ln 2, Col 3" ∧
    (text_viewer_window__update_cursor_position
      { window_new with buffer := buffer_crlf 1 }).cursor_pos = "Ln 1, Col 2" ∧
    (text_viewer_window__update_cursor_position
      { window_new with buffer := buffer_crlf 2 }).cursor_pos = "Ln 1, Col 3" ∧
    (text_viewer_window__update_cursor_position
      { window_new with buffer := buffer_crlf 3 }).cursor_pos = "Ln 2, Col 1" ∧
    (text_viewer_window__update_cursor_position
      { window_new with buffer := buffer_unicode 1 }).cursor_pos = "Ln 1, Col 2" ∧
    (text_viewer_window__update_cursor_position
      { window_new with buffer := buffer_unicode 2 }).cursor_pos = "Ln 2, Col 1" ∧
    (text_viewer_window__update_cursor_position
      { window_new with buffer := buffer_unicode 3 }).cursor_pos = "Ln 2, Col 2" ∧
    (text_viewer_window__update_cursor_position
      { window_new with buffer := buffer_unicode 4 }).cursor_pos = "Ln 3, Col 1" ∧
    (text_viewer_window__update_cursor_position
      { window_new with buffer := buffer_unicode 9 }).cursor_pos = "Ln 3, Col 2" := by
  have hspec := get_iter_at_offset_spec self.buffer self.buffer.cursor_position
  have hb := iter_forward_bounds self.buffer.text self.buffer.cursor_position
    (gtk_text_buffer_get_start_iter self.buffer) (Nat.le_refl _)
  have ho : (gtk_text_buffer_get_start_iter self.buffer).offset = 0 := rfl
  have hiter : iter_forward self.buffer.text self.buffer.cursor_position
      (gtk_text_buffer_get_start_iter self.buffer) =
      { offset := min self.buffer.cursor_position (g_utf8_strlen self.buffer.text)
        line := spec_line_index self.buffer.text self.buffer.cursor_position
        line_offset := spec_offset_in_line self.buffer.text self.buffer.cursor_position } :=
    hspec
  refine ⟨?_, hspec, Nat.le_add_left _ _, Nat.le_add_left _ _, ?_, ?_, rfl, rfl, rfl,
    by decide, by decide, by decide, by decide, by decide, by decide, by decide, by decide,
    by decide⟩
  · show "Ln " ++ toString (gtk_text_iter_get_line (gtk_text_buffer_get_iter_at_offset _ _) + 1)
      ++ ", Col "
      ++ toString (gtk_text_iter_get_line_offset (gtk_text_buffer_get_iter_at_offset _ _) + 1)
      = _
    rw [hspec]
    rfl
  · rw [hiter] at hb
    simp only at hb
    omega
  · show "Ln " ++ toString (gtk_text_iter_get_line (iter_forward _ 0 _) + 1) ++ ", Col "
      ++ toString (gtk_text_iter_get_line_offset (iter_forward _ 0 _) + 1) = "Ln 1, Col 1"
    rw [iter_forward_zero]
    simp only [gtk_text_iter_get_line, gtk_text_iter_get_line_offset,
      gtk_text_buffer_get_start_iter]
    decide

end TextViewer

/-! ## Dark mode -/

namespace TextViewer

theorem activate_init_coherent (settings : GSettings) :
    dark_mode_coherent (text_viewer_application_activate (text_viewer_application_init settings)) := by
  cases settings with
  | mk b => cases b <;> exact ⟨rfl, rfl⟩

theorem toggle_dark_mode_coherent (app : TextViewerApplication) :
    dark_mode_coherent (toggle_dark_mode app) := by
  unfold dark_mode_coherent toggle_dark_mode g_action_change_state change_color_scheme
  cases app.dark_action <;> exact ⟨rfl, rfl⟩

theorem toggles_coherent (settings : GSettings) (n : Nat) :
    dark_mode_coherent (toggle_dark_mode^[n]
      (text_viewer_application_activate (text_viewer_application_init settings))) := by
  cases n with
  | zero => exact activate_init_coherent settings
  | succ n =>
      rw [Function.iterate_succ_apply']
      exact toggle_dark_mode_coherent _

theorem restart_color_scheme (settings : GSettings) :
    (text_viewer_application_activate (text_viewer_application_init settings)).color_scheme =
      (if settings.dark_mode then AdwColorScheme.ADW_COLOR_SCHEME_FORCE_DARK
       else AdwColorScheme.ADW_COLOR_SCHEME_DEFAULT) := by
  cases settings with
  | mk b => cases b <;> rfl

/-- C9: for every stored dark-mode value `b`, initialisation gives the action
the state `b`; activating the toggle action, right after initialisation or
after `activate`, makes the action state `not b`, applies forced-dark when
`not b` is true and the system default when it is false, and writes `not b`
to the key `dark-mode`; and after any number `n` of toggles in the running
application, a new start (init, then activate) from the store left behind
applies the color scheme that was last set. -/
theorem toggle_dark_mode_persisted (b : Bool) (n : Nat) :
    (text_viewer_application_init { dark_mode := b }).dark_action = b ∧
    (toggle_dark_mode (text_viewer_application_init { dark_mode := b })).dark_action = (!b) ∧
    (toggle_dark_mode (text_viewer_application_activate
      (text_viewer_application_init { dark_mode := b }))).dark_action = (!b) ∧
    (toggle_dark_mode (text_viewer_application_activate
      (text_viewer_application_init { dark_mode := b }))).color_scheme =
        (if (!b) = true then AdwColorScheme.ADW_COLOR_SCHEME_FORCE_DARK
         else AdwColorScheme.ADW_COLOR_SCHEME_DEFAULT) ∧
    (toggle_dark_mode (text_viewer_application_activate
      (text_viewer_application_init { dark_mode := b }))).settings.dark_mode = (!b) ∧
    (text_viewer_application_activate (text_viewer_application_init
      (toggle_dark_mode^[n] (text_viewer_application_activate
        (text_viewer_application_init { dark_mode := b }))).settings)).color_scheme =
      (toggle_dark_mode^[n] (text_viewer_application_activate
        (text_viewer_application_init { dark_mode := b }))).color_scheme := by
  refine ⟨rfl, ?_, ?_, ?_, ?_, ?_⟩
  · cases b <;> rfl
  · cases b <;> rfl
  · cases b <;> rfl
  · cases b <;> rfl
  · rw [restart_color_scheme, (toggles_coherent { dark_mode := b } n).2]

end TextViewer

/-! ## Cancelled dialogs -/

namespace TextViewer

/-- C10: for every window state, a dialog completion without a file, from the
open dialog or from the save dialog, returns the state as it was; counted from
before the dialog was shown, the buffer, the cursor label, the title, the
toasts and the diagnostic stream are the same and no file read or write has
been started. -/
theorem dialog_cancel_no_change (self : TextViewerWindow) :
    on_open_response none self = self ∧
    on_save_response none self = self ∧
    (on_open_response none (text_viewer_window__open_file_dialog self)).buffer = self.buffer ∧
    (on_open_response none (text_viewer_window__open_file_dialog self)).cursor_pos
      = self.cursor_pos ∧
    (on_open_response none (text_viewer_window__open_file_dialog self)).title = self.title ∧
    (on_open_response none (text_viewer_window__open_file_dialog self)).toast_overlay
      = self.toast_overlay ∧
    (on_open_response none (text_viewer_window__open_file_dialog self)).stderr = self.stderr ∧
    (on_open_response none (text_viewer_window__open_file_dialog self)).async_calls.filter
        AsyncCall.is_file_access = self.async_calls.filter AsyncCall.is_file_access ∧
    (on_save_response none (text_viewer_window__save_file_dialog self)).buffer = self.buffer ∧
    (on_save_response none (text_viewer_window__save_file_dialog self)).cursor_pos
      = self.cursor_pos ∧
    (on_save_response none (text_viewer_window__save_file_dialog self)).title = self.title ∧
    (on_save_response none (text_viewer_window__save_file_dialog self)).toast_overlay
      = self.toast_overlay ∧
    (on_save_response none (text_viewer_window__save_file_dialog self)).stderr = self.stderr ∧
    (on_save_response none (text_viewer_window__save_file_dialog self)).async_calls.filter
        AsyncCall.is_file_access = self.async_calls.filter AsyncCall.is_file_access := by
  refine ⟨rfl, rfl, rfl, rfl, rfl, rfl, rfl, ?_, rfl, rfl, rfl, rfl, rfl, ?_⟩ <;>
    simp [on_open_response, on_save_response, text_viewer_window__open_file_dialog,
      text_viewer_window__save_file_dialog, start_async, AsyncCall.is_file_access]

end TextViewer
